import Mathlib

/-!
Shallow embedding of the checkin keyboard/printer core
(`src/keyboard-printer-v2-api.js`, plus the ESC/POS text encoder
`convertEscPosToBuffer` from the companion POS-print script).

Definitions are translated from the JavaScript source; theorems check the
natural-language specification's claims against them.
-/

namespace Checkin

/-! ## Key code table (source lines 60-74)

The JS `keyCodeMap` object literal is modelled as an association list in
source order, looked up by key code. -/

def keyCodePairs : List (Nat × String) :=
  [ (1, "ESC"), (2, "1"), (3, "2"), (4, "3"), (5, "4"), (6, "5"), (7, "6"),
    (8, "7"), (9, "8"), (10, "9"),
    (11, "0"), (12, "-"), (13, "="), (14, "BACKSPACE"), (15, "TAB"),
    (16, "q"), (17, "w"), (18, "e"), (19, "r"),
    (20, "t"), (21, "y"), (22, "u"), (23, "i"), (24, "o"), (25, "p"),
    (26, "["), (27, "]"), (28, "ENTER"),
    (29, "CTRL"), (30, "a"), (31, "s"), (32, "d"), (33, "f"), (34, "g"),
    (35, "h"), (36, "j"), (37, "k"),
    (38, "l"), (39, ";"), (40, "\x27"), (41, "`"), (42, "SHIFT"),
    (43, "\\"), (44, "z"), (45, "x"), (46, "c"),
    (47, "v"), (48, "b"), (49, "n"), (50, "m"), (51, ","), (52, "."),
    (53, "/"), (54, "RSHIFT"),
    (56, "LALT"), (57, "SPACE"), (58, "CAPSLOCK"), (59, "F1"), (60, "F2"),
    (61, "F3"), (62, "F4"),
    (63, "F5"), (64, "F6"), (65, "F7"), (66, "F8"), (67, "F9"), (68, "F10"),
    (87, "F11"), (88, "F12"),
    (96, "ENTER"), (97, "RCTRL"), (102, "HOME"), (103, "UP"), (104, "PGUP"),
    (105, "LEFT"),
    (106, "RIGHT"), (107, "END"), (108, "DOWN"), (109, "PGDN"), (110, "INS"),
    (111, "DEL"),
    (71, "7"), (72, "8"), (73, "9"), (74, "-"), (75, "4"), (76, "5"),
    (77, "6"), (78, "+"), (79, "1"),
    (80, "2"), (81, "3"), (82, "0"), (83, "."), (84, "ENTER") ]

def keyCodeMap (code : Nat) : Option String :=
  (keyCodePairs.find? (fun pr => pr.1 == code)).map (fun pr => pr.2)

/-! ## Key decoder (source lines 241-268, `getCharFromKeyCode`) -/

/-- Result of the decoder: the JS function returns `null` for Backspace
(the delete-last-char sentinel) and otherwise a string, with `""` meaning
"no output". -/
inductive KeyOutput
  | backspace
  | out (s : String)
deriving DecidableEq, Repr

/-- JS shifted-symbol object literal `shiftMap`, as an association list. -/
def shiftPairs : List (String × String) :=
  [ ("1", "!"), ("2", "@"), ("3", "#"), ("4", "$"), ("5", "%"),
    ("6", "^"), ("7", "&"), ("8", "*"), ("9", "("), ("0", ")"),
    ("-", "_"), ("=", "+"), ("[", "\x7b"), ("]", "\x7d"), ("\\", "|"),
    (";", ":"), ("\x27", "\""), (",", "<"), (".", ">"), ("/", "?"),
    ("`", "~") ]

def shiftMap (key : String) : Option String :=
  (shiftPairs.find? (fun pr => pr.1 == key)).map (fun pr => pr.2)

/-- JS `key.length === 1 && key.match(/[a-z]/)`: the regex tests whether some
character of the string lies in `[a-z]`. -/
def isLowerAlphaKey (key : String) : Bool :=
  key.length == 1 && key.data.any (fun ch => 'a' ≤ ch && ch ≤ 'z')

/-- JS `String.prototype.toUpperCase`, character by character. -/
def toUpperStr (s : String) : String :=
  String.mk (s.data.map Char.toUpper)

def getCharFromKeyCode (code : Nat) (isShiftPressed isCapsLock : Bool) :
    KeyOutput :=
  match keyCodeMap code with
  | none => KeyOutput.out ""
  | some key =>
    if key == "SPACE" then KeyOutput.out " "
    else if key == "BACKSPACE" then KeyOutput.backspace
    else if key == "ENTER" then KeyOutput.out "\n"
    else if key == "TAB" then KeyOutput.out "\t"
    else if isLowerAlphaKey key then
      if isShiftPressed != isCapsLock then
        KeyOutput.out (toUpperStr key)
      else KeyOutput.out key
    else
      match (if isShiftPressed then shiftMap key else none) with
      | some s => KeyOutput.out s
      | none =>
        if key.length == 1 then KeyOutput.out key else KeyOutput.out ""

/-! ## ESC/POS encoding

`strBytes` models Node's `Buffer.from(string)`: the UTF-8 bytes of the
string. -/

def strBytes (s : String) : List Nat :=
  (s.data.flatMap (fun c => String.utf8EncodeChar c)).map (fun b => b.toNat)

/-- The encoding step of the print path (source lines 165-180): the
`Buffer.concat` that `printToEpson` writes on its direct-write transport.
The `new Date().toLocaleString()` timestamp read there is made an explicit
input. -/
def formatPrintJob (text : String) (timestamp : String) : List Nat :=
  strBytes "\x1B\x40" ++            -- Initialize printer
  strBytes "\x1B\x61\x01" ++        -- Center alignment
  strBytes "\x1B\x21\x30" ++        -- Double height and width
  strBytes "PRINT TEST\n" ++        -- Header
  strBytes "\x1B\x21\x00" ++        -- Normal text
  strBytes "\x1B\x61\x00" ++        -- Left alignment
  strBytes "----------------\n" ++  -- Separator line
  strBytes (text ++ "\n") ++        -- The actual text
  strBytes "----------------\n" ++  -- Separator line
  strBytes "\x1B\x61\x01" ++        -- Center alignment
  strBytes (timestamp ++ "\n") ++   -- Timestamp
  strBytes "\x1B\x61\x00" ++        -- Left alignment
  strBytes "\n\n\n\n\n\n\n\n\n\n" ++ -- Margin before cut
  strBytes "\x1D\x56\x00"           -- Full paper cut

/-! ## ESC/POS text encoder `convertEscPosToBuffer`
(companion POS-print script, `src/unnamed/part_000` lines 72-106) -/

/-- Whitespace for the purposes of JS `String.prototype.trim`. -/
def isWS (c : Char) : Bool :=
  c == ' ' || c == '\t' || c == '\n' || c == '\r' || c == '\x0b' || c == '\x0c'

def trimList (l : List Char) : List Char :=
  ((l.dropWhile isWS).reverse.dropWhile isWS).reverse

/-- JS `String.prototype.trim`. -/
def jsTrim (s : String) : String :=
  String.mk (trimList s.data)

/-- Split a character list at every occurrence of `sep`, keeping empty
pieces — the behaviour of JS `String.prototype.split` with a
one-character separator. -/
def splitChar (sep : Char) : List Char → List (List Char)
  | [] => [[]]
  | c :: t =>
    let r := splitChar sep t
    if c == sep then [] :: r
    else
      match r with
      | [] => [[c]]
      | h :: t2 => (c :: h) :: t2

def jsSplit (sep : Char) (s : String) : List String :=
  (splitChar sep s.data).map String.mk

/-- JS `String.prototype.startsWith` for a one-character pattern. -/
def jsStartsWith (s : String) (c : Char) : Bool :=
  match s.data with
  | [] => false
  | h :: _ => h == c

/-- JS `String.prototype.startsWith` for a string pattern. -/
def strStarts (s pat : String) : Bool :=
  pat.data.isPrefixOf s.data

/-- JS `parseInt`: trim, optional sign, leading decimal digits;
`none` models `NaN`. -/
def parseIntJS (s : String) : Option Int :=
  let signRest : Int × List Char :=
    match trimList s.data with
    | '-' :: r => (-1, r)
    | '+' :: r => (1, r)
    | r => (1, r)
  let digits := signRest.2.takeWhile Char.isDigit
  if digits.isEmpty then none
  else some (signRest.1 *
    (digits.foldl (fun a c => a * 10 + (c.toNat - 48)) 0 : Nat))

/-- `Buffer.from` coerces each pushed number to a byte: `NaN` (and an absent
`parts[2]`, i.e. `parseInt(undefined)`) becomes `0`, other values wrap
mod 256. -/
def toByte (s : Option String) : Nat :=
  match s with
  | none => 0
  | some str =>
    match parseIntJS str with
    | none => 0
    | some i => (i % 256).toNat

/-- Substring test, modelling JS `String.prototype.includes`. -/
def subListScan (pat : List Char) : List Char → Bool
  | [] => pat.isEmpty
  | c :: t => pat.isPrefixOf (c :: t) || subListScan pat t

def strContains (s pat : String) : Bool :=
  subListScan pat.data s.data

/-- JS `String.prototype.toLowerCase`, character by character. -/
def toLowerStr (s : String) : String :=
  String.mk (s.data.map Char.toLower)

/-- JS `line.replace(/"/g, '')`: drop every double-quote character. -/
def stripQuotes (line : String) : String :=
  String.mk (line.data.filter (fun c => c != '"'))

/-- Bytes contributed by one line of the ESC/POS text format. -/
def escLineBytes (line : String) : List Nat :=
  if (jsTrim line).data.isEmpty || jsStartsWith (jsTrim line) ';' then []
  else if strContains line "ESC" then
    let parts := jsSplit ' ' line
    match parts.get? 1 with
    | some "@" => [0x1B, 0x40]                      -- Initialize printer
    | some "a" => [0x1B, 0x61, toByte (parts.get? 2)] -- Alignment
    | some "!" => [0x1B, 0x21, toByte (parts.get? 2)] -- Text format
    | some "E" => [0x1B, 0x45, toByte (parts.get? 2)] -- Bold
    | some "i" => [0x1D, 0x56, 0x00]                -- Cut paper
    | _ => []
  else if strContains line "LF" then [0x0A]         -- Line feed
  else
    let t := jsTrim (stripQuotes line)
    if t.data.isEmpty then [] else strBytes (t ++ "\n")

def convertEscPosToBuffer (text : String) : List Nat :=
  ((jsSplit '\n' text).map escLineBytes).flatten

/-! ## Print dispatcher (`printToEpson`, source lines 141-238)

The ambient conditions the function samples are made an explicit `PrintEnv`:
whether the device path exists, whether the permission probe succeeds,
whether the direct `openSync`/`writeSync`/`closeSync` sequence succeeds,
whether `isPrinterConnected` resolves to `true`, and whether
`thermalPrinter.execute()` resolves without throwing. -/

structure PrintEnv where
  pathExists : Bool
  pathWritable : Bool
  directWriteOk : Bool
  fallbackConnected : Bool
  fallbackExecOk : Bool
deriving DecidableEq, Repr

inductive PrintStep
  | checkedExists
  | checkedWritable
  | directWrite
  | fallbackConnect
  | fallbackExecute
deriving DecidableEq, Repr

/-- Result (`true` = job reported printed) and the ordered operations
attempted, mirroring the control flow of `printToEpson`: early return on a
missing or unwritable path; `try` direct write, with the `catch` falling
through to the thermal-printer library; `isConnected === false` returns
`false`; a throwing `execute` is caught by the outer handler, which
returns `false`. -/
def printToEpson (env : PrintEnv) : Bool × List PrintStep :=
  if !env.pathExists then
    (false, [PrintStep.checkedExists])
  else if !env.pathWritable then
    (false, [PrintStep.checkedExists, PrintStep.checkedWritable])
  else if env.directWriteOk then
    (true, [PrintStep.checkedExists, PrintStep.checkedWritable,
            PrintStep.directWrite])
  else if !env.fallbackConnected then
    (false, [PrintStep.checkedExists, PrintStep.checkedWritable,
             PrintStep.directWrite, PrintStep.fallbackConnect])
  else if env.fallbackExecOk then
    (true, [PrintStep.checkedExists, PrintStep.checkedWritable,
            PrintStep.directWrite, PrintStep.fallbackConnect,
            PrintStep.fallbackExecute])
  else
    (false, [PrintStep.checkedExists, PrintStep.checkedWritable,
             PrintStep.directWrite, PrintStep.fallbackConnect,
             PrintStep.fallbackExecute])

/-! ## Event-loop model of concurrent submissions (for the
serialization claim)

`printToEpson` is `async` but its direct-write path contains no `await`:
checks, `openSync`, `writeSync`, `closeSync` all run in one event-loop
turn. The fallback path suspends at `await isPrinterConnected()` and at
`await execute()`; the job's bytes are transmitted during the `execute`
window, between two turns. A submission therefore compiles to a list of
atomic segments of device actions; the event loop may interleave segments
of concurrent submissions arbitrarily, preserving each submission's
order. -/

inductive EvAction
  | syncWrite (job : Nat)        -- `writeSync` of the whole encoded buffer
  | startAsyncWrite (job : Nat)  -- `execute()` begins transmitting
  | endAsyncWrite (job : Nat)    -- `execute()` settles
  | connectProbe (job : Nat)     -- `isPrinterConnected()` round-trip
deriving DecidableEq, Repr

/-- Segments of device actions performed by one `printToEpson` call, by
env, with the same branch structure as `printToEpson`. -/
def printSegments (job : Nat) (env : PrintEnv) : List (List EvAction) :=
  if !env.pathExists then [[]]
  else if !env.pathWritable then [[]]
  else if env.directWriteOk then [[EvAction.syncWrite job]]
  else if !env.fallbackConnected then [[EvAction.connectProbe job], []]
  else [[EvAction.connectProbe job], [EvAction.startAsyncWrite job],
        [EvAction.endAsyncWrite job]]

/-- `Merge xs ys zs`: `zs` is an order-preserving interleaving of `xs` and
`ys` — the schedules a cooperative event loop can produce from two
concurrent tasks' segment lists. -/
inductive Merge {α : Type} : List α → List α → List α → Prop
  | nil : Merge [] [] []
  | left {x : α} {xs ys zs : List α} :
      Merge xs ys zs → Merge (x :: xs) ys (x :: zs)
  | right {y : α} {xs ys zs : List α} :
      Merge xs ys zs → Merge xs (y :: ys) (y :: zs)

/-- Scan a flattened schedule keeping the set of jobs with an async write
in flight; a write by a different job while one is in flight violates
"at most one write in flight to the device". -/
def overlapScan : List EvAction → List Nat → Bool
  | [], _ => true
  | a :: rest, inFlight =>
    match a with
    | EvAction.syncWrite j =>
        inFlight.all (fun k => k == j) && overlapScan rest inFlight
    | EvAction.startAsyncWrite j =>
        inFlight.all (fun k => k == j) && overlapScan rest (j :: inFlight)
    | EvAction.endAsyncWrite j => overlapScan rest (inFlight.erase j)
    | EvAction.connectProbe _ => overlapScan rest inFlight

def overlapFree (l : List EvAction) : Bool := overlapScan l []

/-! ## Worker read-loop event processing (source lines 506-525)

One iteration of `readLoop` on a complete 24-byte record, given the decoded
`type`/`code`/`value` fields and the worker's modifier state. -/

structure KeyboardState where
  isShiftPressed : Bool
  isCapsLock : Bool
deriving DecidableEq, Repr

inductive WorkerMsg
  | shiftMsg (pressed : Bool)
  | capsMsg (isOn : Bool)
  | keypress (out : KeyOutput)
deriving DecidableEq, Repr

def processEvent (ty code : Nat) (value : Int) (st : KeyboardState) :
    KeyboardState × List WorkerMsg :=
  if ty == 1 then -- EV_KEY
    if code == 42 then -- Left Shift
      let p := value == 1
      ({ st with isShiftPressed := p }, [WorkerMsg.shiftMsg p])
    else if code == 58 then -- Caps Lock
      if value == 1 then
        let c := !st.isCapsLock
        ({ st with isCapsLock := c }, [WorkerMsg.capsMsg c])
      else (st, [])
    else if value == 1 then -- Key press
      (st,
       [WorkerMsg.keypress
          (getCharFromKeyCode code st.isShiftPressed st.isCapsLock)])
    else (st, [])
  else (st, [])

/-! ## Printer device-path resolution (`getDevicePath`, source lines 84-102) -/

def printerPaths : List String :=
  [ "/dev/usb/lp0", "/dev/usb/lp1", "/dev/usb/lp2", "/dev/usb/lp3",
    "/dev/lp0", "/dev/lp1", "/dev/lp2", "/dev/lp3" ]

/-- The `for` loop of `getDevicePath`: first candidate for which
`fs.existsSync` holds. -/
def firstExisting (pathOk : String → Bool) : List String → Option String
  | [] => none
  | p :: rest => if pathOk p then some p else firstExisting pathOk rest

def getDevicePath (pathOk : String → Bool) : Option String :=
  firstExisting pathOk printerPaths

/-! ## Keyboard discovery (`detectKeyboardDevices`, source lines 596-660)

The filesystem and external tools are an explicit environment. `none` for a
directory listing or a command output models the call throwing
(missing directory, absent tool, or — for the per-device
`udevadm | grep -i keyboard` pipeline — a grep with no match, which exits
nonzero and makes `execSync` throw). -/

structure DiscoveryEnv where
  devInput : Option (List String)
  udevadmKeyboardGrep : String → Option String
  devInputById : Option (List String)
  pathOk : String → Bool
  evtest : Option String

/-- Strategy 1: scan `/dev/input` for `event*` nodes and probe each with
`udevadm`. `none` means the directory listing itself threw — inside the
source this propagates to the function's outer `catch`. Per-device probe
failures are caught by the inner `try`/`catch` and skipped. -/
def strategy1 (env : DiscoveryEnv) : Option (List String) :=
  match env.devInput with
  | none => none
  | some files =>
    some ((files.filter (fun f => strStarts f "event")).filterMap
      (fun f =>
        let p := "/dev/input/" ++ f
        match env.udevadmKeyboardGrep p with
        | none => none
        | some info =>
          if strContains info "keyboard" then some p else none))

/-- Strategy 2: `/dev/input/by-id` entries whose lowercased name contains
`kbd`; a throwing listing is caught locally and yields nothing. -/
def strategy2 (env : DiscoveryEnv) : List String :=
  match env.devInputById with
  | none => []
  | some files =>
    (files.filter (fun f => strContains (toLowerStr f) "kbd")).filterMap
      (fun f =>
        let p := "/dev/input/by-id/" ++ f
        if env.pathOk p then some p else none)

/-- Strategy 3's line scan: on a `keyboard`-labelled line, take the first
space-separated token of the next line as the device path and skip that
line. When the labelled line is the last one, `lines[i+1]` is `undefined`
and `.trim()` throws; the local `catch` keeps what was already pushed. -/
def evtestScan (pathOk : String → Bool) : List String → List String
  | [] => []
  | line :: rest =>
    if strContains (toLowerStr line) "keyboard" then
      match rest with
      | [] => []
      | next :: rest2 =>
        let p := (jsSplit ' ' (jsTrim next)).headD ""
        (if p != "" && pathOk p then [p] else []) ++ evtestScan pathOk rest2
    else evtestScan pathOk rest

/-- `detectKeyboardDevices`: strategy 1; if it found nothing, strategy 2;
if still nothing, strategy 3 (`evtest --list-devices`); a throw of
strategy 1's directory scan reaches the outer `catch`, which returns the
empty list. The caller always receives a list, never an error. -/
def detectKeyboardDevices (env : DiscoveryEnv) : List String :=
  match strategy1 env with
  | none => []
  | some s1 =>
    let afterS2 := s1 ++ (if s1.isEmpty then strategy2 env else [])
    afterS2 ++
      (if afterS2.isEmpty then
        (match env.evtest with
         | none => []
         | some out => evtestScan env.pathOk (jsSplit '\n' out))
       else [])

/-! ## Presence poll loop (`waitForPrinter`, source lines 662-673)

The loop body: run `detectEpsonPrinters()`; if non-empty return the first
element; otherwise sleep five seconds and iterate. The successive poll
results are an explicit stream, and the loop is observed for `fuel`
iterations: `none` means the loop was still running after `fuel`
iterations. There is no cancellation parameter in the source. -/

structure PrinterHandle where
  model : String
  vendorId : String
  productId : String
  devicePath : String
deriving DecidableEq, Repr

def waitForPrinterAux (polls : Nat → List PrinterHandle) :
    Nat → Nat → Option PrinterHandle
  | _, 0 => none
  | i, fuel + 1 =>
    match polls i with
    | [] => waitForPrinterAux polls (i + 1) fuel
    | p :: _ => some p

def waitForPrinter (polls : Nat → List PrinterHandle) (fuel : Nat) :
    Option PrinterHandle :=
  waitForPrinterAux polls 0 fuel

/-- Modelled from the spec: §4.3's `awaitPresence` contract, which the
repository's `waitForPrinter` is claimed to implement — "caller-supplied
cancellation token must be checked each iteration; on cancellation, the
call fails with `Cancelled`". This definition exists only for comparison
with the source-derived `waitForPrinter`, which has no cancellation
input. -/
inductive PollOutcome
  | found (p : PrinterHandle)
  | cancelled
deriving DecidableEq, Repr

def awaitPresenceSpec (polls : Nat → List PrinterHandle)
    (cancelRequested : Nat → Bool) : Nat → Nat → Option PollOutcome
  | _, 0 => none
  | i, fuel + 1 =>
    if cancelRequested i then some PollOutcome.cancelled
    else
      match polls i with
      | [] => awaitPresenceSpec polls cancelRequested (i + 1) fuel
      | p :: _ => some (PollOutcome.found p)

/-! ## Claims about the key decoder -/

/-- The JS `shiftMap` object only has one-character keys, so lookups of
longer names miss. -/
lemma shiftMap_eq_none_of_length_ne_one (key : String)
    (h : key.length ≠ 1) : shiftMap key = none := by
  have hall : ∀ pr ∈ shiftPairs, ¬ ((pr.1 == key) = true) := by
    intro pr hpr hbeq
    have heq : pr.1 = key := by simpa using hbeq
    rw [← heq] at h
    fin_cases hpr <;> exact h (by decide)
  simp [shiftMap, List.find?_eq_none.mpr hall]

/-- Claim C4: for every alphabetic key in the symbol table, the decoded character
is the uppercase form exactly when `shiftPressed XOR capsLock` holds, and
the lowercase form otherwise. -/
theorem alpha_case_resolution (code : Nat) (key : String) (s c : Bool)
    (hmap : keyCodeMap code = some key)
    (halpha : isLowerAlphaKey key = true) :
    getCharFromKeyCode code s c =
      KeyOutput.out (if s != c then toUpperStr key else key) := by
  have hS : ¬ ((key == "SPACE") = true) := by
    simp only [beq_iff_eq]
    rintro rfl; exact absurd halpha (by decide)
  have hB : ¬ ((key == "BACKSPACE") = true) := by
    simp only [beq_iff_eq]
    rintro rfl; exact absurd halpha (by decide)
  have hE : ¬ ((key == "ENTER") = true) := by
    simp only [beq_iff_eq]
    rintro rfl; exact absurd halpha (by decide)
  have hT : ¬ ((key == "TAB") = true) := by
    simp only [beq_iff_eq]
    rintro rfl; exact absurd halpha (by decide)
  simp only [getCharFromKeyCode, hmap]
  rw [if_neg hS, if_neg hB, if_neg hE, if_neg hT, if_pos halpha]
  cases h : (s != c) <;> simp [h]

/-- Witness for C4 at key code 30 (symbol `'a'`): Shift without CapsLock
gives `'A'`, Shift with CapsLock gives `'a'`. -/
theorem alpha_case_resolution_witness :
    getCharFromKeyCode 30 true false = KeyOutput.out "A" ∧
    getCharFromKeyCode 30 true true = KeyOutput.out "a" := by
  constructor
  · rw [alpha_case_resolution 30 "a" true false (by decide) (by decide)]
    decide
  · rw [alpha_case_resolution 30 "a" true true (by decide) (by decide)]
    decide

/-- Claim C5: key codes missing from the symbol table decode to the "no output"
result `out ""`, which differs both from the line-terminator output that
Enter (code 28) produces and from the Backspace sentinel that code 14
produces; the Backspace result is a sentinel distinct from every character
output. -/
theorem unmapped_code_no_output (code : Nat) (s c : Bool)
    (h : keyCodeMap code = none) :
    getCharFromKeyCode code s c = KeyOutput.out "" ∧
    KeyOutput.out "" ≠ getCharFromKeyCode 28 s c ∧
    KeyOutput.out "" ≠ getCharFromKeyCode 14 s c ∧
    getCharFromKeyCode 28 s c = KeyOutput.out "\n" ∧
    getCharFromKeyCode 14 s c = KeyOutput.backspace := by
  have h28 : getCharFromKeyCode 28 s c = KeyOutput.out "\n" := by
    cases s <;> cases c <;> decide
  have h14 : getCharFromKeyCode 14 s c = KeyOutput.backspace := by
    cases s <;> cases c <;> decide
  refine ⟨?_, ?_, ?_, h28, h14⟩
  · simp [getCharFromKeyCode, h]
  · rw [h28]; decide
  · rw [h14]; decide

/-- Witness for C5 at key code 55, which is absent from the table. -/
theorem unmapped_code_no_output_witness :
    getCharFromKeyCode 55 true false = KeyOutput.out "" ∧
    getCharFromKeyCode 28 true false = KeyOutput.out "\n" ∧
    getCharFromKeyCode 14 true false = KeyOutput.backspace := by
  obtain ⟨h1, _, _, h4, h5⟩ :=
    unmapped_code_no_output 55 true false (by decide)
  exact ⟨h1, h4, h5⟩

/-- Claim C10: every multi-character named key other than SPACE, BACKSPACE,
ENTER and TAB decodes to the "no output" result, whatever the modifier
state. -/
theorem named_key_no_output (code : Nat) (key : String) (s c : Bool)
    (hmap : keyCodeMap code = some key)
    (hlen : 2 ≤ key.length)
    (hS : key ≠ "SPACE") (hB : key ≠ "BACKSPACE")
    (hE : key ≠ "ENTER") (hT : key ≠ "TAB") :
    getCharFromKeyCode code s c = KeyOutput.out "" := by
  have hlen1 : key.length ≠ 1 := by omega
  have halpha : ¬ (isLowerAlphaKey key = true) := by
    simp only [isLowerAlphaKey, Bool.and_eq_true, beq_iff_eq]
    rintro ⟨h1, -⟩; exact hlen1 h1
  have hsm : shiftMap key = none :=
    shiftMap_eq_none_of_length_ne_one key hlen1
  have hlb : ¬ ((key.length == 1) = true) := by
    simp only [beq_iff_eq]; exact hlen1
  simp only [getCharFromKeyCode, hmap, beq_iff_eq]
  rw [if_neg hS, if_neg hB, if_neg hE, if_neg hT, if_neg halpha]
  have hnone : (if s = true then shiftMap key else none) = none := by
    cases s
    · rfl
    · simpa using hsm
  rw [hnone]
  show (if key.length = 1 then KeyOutput.out key else KeyOutput.out "") =
    KeyOutput.out ""
  exact if_neg hlen1

/-- Witness for C10 at key code 111 (DEL): no character, no sentinel. -/
theorem named_key_no_output_witness :
    getCharFromKeyCode 111 true true = KeyOutput.out "" :=
  named_key_no_output 111 "DEL" true true (by decide) (by decide)
    (by decide) (by decide) (by decide) (by decide)

/-! ## Claims about the encoder -/

/-- Counterexample for C1: the encoding step of the print path embeds the
wall-clock timestamp it reads via `new Date().toLocaleString()`, so two
invocations with the same input text at different times produce different
byte sequences — the output depends on ambient state. -/
theorem encode_timestamp_counterexample :
    formatPrintJob "hello" "1/1/2024, 10:00:00 AM" ≠
      formatPrintJob "hello" "1/1/2024, 10:00:05 AM" := by decide

/-- Claim C1, amended: encoding is deterministic in the pair (input text,
timestamp) — and the byte stream always ends in the full-cut command —
while the standalone `convertEscPosToBuffer` encoder is pure in the text
alone: the empty text encodes to the empty byte sequence and a lone cut
command line encodes to exactly `[0x1D, 0x56, 0x00]`. -/
theorem encode_deterministic_amended :
    (∀ text ts, formatPrintJob text ts = formatPrintJob text ts) ∧
    (∀ text ts, ∃ pre, formatPrintJob text ts = pre ++ [0x1D, 0x56, 0x00]) ∧
    convertEscPosToBuffer "ESC i" = [0x1D, 0x56, 0x00] ∧
    convertEscPosToBuffer "" = [] := by
  refine ⟨fun text ts => rfl, fun text ts => ?_, by decide, by decide⟩
  refine ⟨strBytes "\x1B\x40" ++ strBytes "\x1B\x61\x01" ++
    strBytes "\x1B\x21\x30" ++ strBytes "PRINT TEST\n" ++
    strBytes "\x1B\x21\x00" ++ strBytes "\x1B\x61\x00" ++
    strBytes "----------------\n" ++ strBytes (text ++ "\n") ++
    strBytes "----------------\n" ++ strBytes "\x1B\x61\x01" ++
    strBytes (ts ++ "\n") ++ strBytes "\x1B\x61\x00" ++
    strBytes "\n\n\n\n\n\n\n\n\n\n", ?_⟩
  have hcut : strBytes "\x1D\x56\x00" = [0x1D, 0x56, 0x00] := by decide
  simp [formatPrintJob, List.append_assoc, hcut]

/-! ## Claims about the print dispatcher -/

/-- Claim C2: `printToEpson` proceeds in order with early exits — a missing or
unwritable device path fails without any transport attempt; with the
checks passed the direct write is attempted, and succeeds with no
fallback; a failed direct write falls through to the fallback transport
instead of propagating; a fallback that cannot connect or whose execute
throws yields a failed result, and a fallback that connects and executes
yields success. -/
theorem dispatcher_order (env : PrintEnv) :
    ((env.pathExists = false ∨ env.pathWritable = false) →
       (printToEpson env).1 = false ∧
       PrintStep.directWrite ∉ (printToEpson env).2 ∧
       PrintStep.fallbackConnect ∉ (printToEpson env).2 ∧
       PrintStep.fallbackExecute ∉ (printToEpson env).2) ∧
    (env.pathExists = true → env.pathWritable = true →
       PrintStep.directWrite ∈ (printToEpson env).2 ∧
       (env.directWriteOk = true →
          (printToEpson env).1 = true ∧
          PrintStep.fallbackConnect ∉ (printToEpson env).2) ∧
       (env.directWriteOk = false →
          PrintStep.fallbackConnect ∈ (printToEpson env).2 ∧
          ((env.fallbackConnected = false ∨ env.fallbackExecOk = false) →
             (printToEpson env).1 = false) ∧
          (env.fallbackConnected = true → env.fallbackExecOk = true →
             (printToEpson env).1 = true))) := by
  obtain ⟨e, w, d, cn, x⟩ := env
  constructor <;>
    cases e <;> cases w <;> cases d <;> cases cn <;> cases x <;> decide

/-- Witness for C2: an unwritable path fails with no transport attempted;
a failing direct write with a connected-but-throwing fallback attempts
both transports and reports failure. -/
theorem dispatcher_order_witness :
    ((printToEpson ⟨true, false, true, true, true⟩).1 = false ∧
       PrintStep.directWrite ∉
         (printToEpson ⟨true, false, true, true, true⟩).2) ∧
    (PrintStep.fallbackConnect ∈
       (printToEpson ⟨true, true, false, true, false⟩).2 ∧
     (printToEpson ⟨true, true, false, true, false⟩).1 = false) := by
  constructor
  · have h := (dispatcher_order ⟨true, false, true, true, true⟩).1
      (Or.inr rfl)
    exact ⟨h.1, h.2.1⟩
  · have h :=
      ((dispatcher_order ⟨true, true, false, true, false⟩).2 rfl rfl).2.2 rfl
    exact ⟨h.1, h.2.1 (Or.inr rfl)⟩

/-! ## Claims about printer device-path resolution -/

lemma firstExisting_eq_none_iff (f : String → Bool) (l : List String) :
    firstExisting f l = none ↔ ∀ p ∈ l, f p = false := by
  induction l with
  | nil => simp [firstExisting]
  | cons a t ih =>
    simp only [firstExisting]
    cases h : f a with
    | false => simp [h, ih]
    | true => simp [h]

lemma firstExisting_eq_some_iff (f : String → Bool) (l : List String)
    (p : String) :
    firstExisting f l = some p ↔
      ∃ pre post, l = pre ++ p :: post ∧
        (∀ q ∈ pre, f q = false) ∧ f p = true := by
  induction l with
  | nil => simp [firstExisting]
  | cons a t ih =>
    simp only [firstExisting]
    cases h : f a with
    | true =>
      simp only [if_pos rfl]
      constructor
      · rintro heq
        injection heq with heq
        exact ⟨[], t, by simp [heq], by simp, by rw [← heq]; exact h⟩
      · rintro ⟨pre, post, heq, hall, hp⟩
        cases pre with
        | nil =>
          simp only [List.nil_append, List.cons.injEq] at heq
          simp [heq.1]
        | cons b t1 =>
          simp only [List.cons_append, List.cons.injEq] at heq
          have : f a = false := heq.1 ▸ hall b (by simp)
          rw [this] at h; cases h
    | false =>
      simp only [Bool.false_eq_true, if_false, ih]
      constructor
      · rintro ⟨pre, post, heq, hall, hp⟩
        refine ⟨a :: pre, post, by simp [heq], ?_, hp⟩
        intro q hq
        rcases List.mem_cons.mp hq with rfl | hq2
        · exact h
        · exact hall q hq2
      · rintro ⟨pre, post, heq, hall, hp⟩
        cases pre with
        | nil =>
          simp only [List.nil_append, List.cons.injEq] at heq
          rw [heq.1, hp] at h; cases h
        | cons b t1 =>
          simp only [List.cons_append, List.cons.injEq] at heq
          exact ⟨t1, post, heq.2, fun q hq => hall q (by simp [hq]), hp⟩

/-- Claim C8: `getDevicePath` returns the first candidate of its fixed path list
that exists — some path is returned exactly when the candidate list splits
into a prefix of non-existing paths followed by that path, existing; when
no candidate exists it returns `none`; in particular, when only
`/dev/usb/lp1` exists it is returned, and when nothing exists the result
is `none`. -/
theorem device_path_first_match :
    (∀ pathOk p, getDevicePath pathOk = some p ↔
       ∃ pre post, printerPaths = pre ++ p :: post ∧
         (∀ q ∈ pre, pathOk q = false) ∧ pathOk p = true) ∧
    (∀ pathOk, (∀ p ∈ printerPaths, pathOk p = false) →
       getDevicePath pathOk = none) ∧
    getDevicePath (fun p => p == "/dev/usb/lp1") = some "/dev/usb/lp1" ∧
    getDevicePath (fun _ => false) = none := by
  refine ⟨fun pathOk p => ?_, fun pathOk h => ?_, by decide, by decide⟩
  · exact firstExisting_eq_some_iff pathOk printerPaths p
  · exact (firstExisting_eq_none_iff pathOk printerPaths).mpr h

/-- Witness for C8: the scenario from the spec, only `/dev/usb/lp1`
existing. -/
theorem device_path_first_match_witness :
    getDevicePath (fun p => p == "/dev/usb/lp1") = some "/dev/usb/lp1" ∧
    getDevicePath (fun _ => false) = none := by
  constructor
  · exact (device_path_first_match.1
      (fun p => p == "/dev/usb/lp1") "/dev/usb/lp1").mpr
      ⟨["/dev/usb/lp0"],
       ["/dev/usb/lp2", "/dev/usb/lp3", "/dev/lp0", "/dev/lp1",
        "/dev/lp2", "/dev/lp3"], by decide, by decide, by decide⟩
  · exact device_path_first_match.2.1 (fun _ => false) (fun p _ => rfl)

/-! ## Claims about serialization of concurrent submissions -/

/-- A submission that needs the fallback transport (direct write fails,
library connects and executes). -/
def fallbackEnv : PrintEnv := ⟨true, true, false, true, true⟩

/-- A submission that succeeds on the direct write. -/
def directEnv : PrintEnv := ⟨true, true, true, true, true⟩

/-- A schedule in which submission 2's synchronous direct write runs in
the event-loop turn between submission 1 starting `execute()` and that
`execute()` settling. -/
def overlappingSchedule : List (List EvAction) :=
  [[EvAction.connectProbe 1], [EvAction.startAsyncWrite 1],
   [EvAction.syncWrite 2], [EvAction.endAsyncWrite 1]]

/-- Counterexample for C3: `printToEpson` holds no lock, so the event loop
may schedule a second submission's direct write while the first
submission's fallback transport still has its write in flight — the
overlapping schedule is a legal interleaving of the two submissions'
segment lists, and it violates "at most one write in flight". -/
theorem submit_interleaving_counterexample :
    Merge (printSegments 1 fallbackEnv) (printSegments 2 directEnv)
      overlappingSchedule ∧
    overlapFree overlappingSchedule.flatten = false := by
  constructor
  · exact Merge.left (Merge.left (Merge.right (Merge.left Merge.nil)))
  · decide

/-- Claim C3, amended: the only serialization the code provides is the
atomicity of one event-loop turn — two submissions that both succeed on
the synchronous direct-write path never overlap their device writes under
any event-loop schedule. (With a fallback transport in flight, overlap is
possible; see the counterexample.) -/
theorem direct_writes_serialized (envA envB : PrintEnv)
    (hA : envA.pathExists = true ∧ envA.pathWritable = true ∧
      envA.directWriteOk = true)
    (hB : envB.pathExists = true ∧ envB.pathWritable = true ∧
      envB.directWriteOk = true)
    (σ : List (List EvAction))
    (h : Merge (printSegments 1 envA) (printSegments 2 envB) σ) :
    overlapFree σ.flatten = true := by
  obtain ⟨hA1, hA2, hA3⟩ := hA
  obtain ⟨hB1, hB2, hB3⟩ := hB
  have eA : printSegments 1 envA = [[EvAction.syncWrite 1]] := by
    simp [printSegments, hA1, hA2, hA3]
  have eB : printSegments 2 envB = [[EvAction.syncWrite 2]] := by
    simp [printSegments, hB1, hB2, hB3]
  rw [eA, eB] at h
  cases h with
  | left h1 =>
    cases h1 with
    | right h2 => cases h2; decide
  | right h1 =>
    cases h1 with
    | left h2 => cases h2; decide

/-- Witness for the amended C3: two direct-write submissions scheduled one
after the other produce a non-overlapping schedule. -/
theorem direct_writes_serialized_witness :
    overlapFree
      ([[EvAction.syncWrite 1], [EvAction.syncWrite 2]] :
        List (List EvAction)).flatten = true := by
  have hm : Merge (printSegments 1 ⟨true, true, true, true, true⟩)
      (printSegments 2 ⟨true, true, true, true, true⟩)
      [[EvAction.syncWrite 1], [EvAction.syncWrite 2]] :=
    Merge.left (Merge.right Merge.nil)
  exact direct_writes_serialized ⟨true, true, true, true, true⟩
    ⟨true, true, true, true, true⟩ ⟨rfl, rfl, rfl⟩ ⟨rfl, rfl, rfl⟩ _ hm

/-! ## Claims about read-loop event processing -/

/-- Counterexample for C6: a key event for Left Shift (code 42) with value
2 (auto-repeat) is neither a key-down nor a key-up, yet it changes the
modifier state — it releases shift — and posts a message. -/
theorem shift_autorepeat_counterexample :
    processEvent 1 42 2 ⟨true, false⟩ =
      (⟨false, false⟩, [WorkerMsg.shiftMsg false]) ∧
    (⟨false, false⟩ : KeyboardState) ≠ ⟨true, false⟩ := by decide

/-- Claim C6, amended: for every key code other than Left Shift (42), an event
whose value is neither 1 nor 0 produces nothing and leaves the state
unchanged; for code 42, any value other than 1 — auto-repeat included —
releases shift and posts a shift message; key-up events update modifier
state only: code 42 releases shift, every other code (Caps Lock included)
leaves the state unchanged and produces nothing. -/
theorem nonpress_events_amended :
    (∀ code value st, code ≠ 42 → value ≠ 1 → value ≠ 0 →
       processEvent 1 code value st = (st, [])) ∧
    (∀ value st, value ≠ 1 →
       processEvent 1 42 value st =
         ({ st with isShiftPressed := false },
          [WorkerMsg.shiftMsg false])) ∧
    (∀ code st, code ≠ 42 → processEvent 1 code 0 st = (st, [])) ∧
    (∀ st, processEvent 1 42 0 st =
       ({ st with isShiftPressed := false }, [WorkerMsg.shiftMsg false])) := by
  have core : ∀ code (value : Int) st, code ≠ 42 → value ≠ 1 →
      processEvent 1 code value st = (st, []) := by
    intro code value st h42 h1
    have e42 : (code == 42) = false := by simpa using h42
    have e1 : (value == 1) = false := by simpa using h1
    by_cases h58 : code = 58
    · subst h58
      simp [processEvent, e1]
    · have e58 : (code == 58) = false := by simpa using h58
      simp [processEvent, e42, e58, e1]
  have shift : ∀ (value : Int) st, value ≠ 1 →
      processEvent 1 42 value st =
        ({ st with isShiftPressed := false },
         [WorkerMsg.shiftMsg false]) := by
    intro value st h1
    have e1 : (value == 1) = false := by simpa using h1
    simp [processEvent, e1]
  exact ⟨fun code value st h42 h1 _ => core code value st h42 h1,
    shift,
    fun code st h42 => core code 0 st h42 (by decide),
    fun st => shift 0 st (by decide)⟩

/-- Witness for the amended C6: an auto-repeat of a letter key is ignored;
an auto-repeat of Left Shift releases shift; a key-up of a letter key
changes nothing; a key-up of Left Shift releases shift. -/
theorem nonpress_events_amended_witness :
    processEvent 1 30 2 ⟨true, true⟩ = (⟨true, true⟩, []) ∧
    processEvent 1 42 2 ⟨true, true⟩ =
      (⟨false, true⟩, [WorkerMsg.shiftMsg false]) ∧
    processEvent 1 30 0 ⟨false, true⟩ = (⟨false, true⟩, []) ∧
    processEvent 1 42 0 ⟨true, false⟩ =
      (⟨false, false⟩, [WorkerMsg.shiftMsg false]) :=
  ⟨nonpress_events_amended.1 30 2 ⟨true, true⟩ (by decide) (by decide)
      (by decide),
   nonpress_events_amended.2.1 2 ⟨true, true⟩ (by decide),
   nonpress_events_amended.2.2.1 30 ⟨false, true⟩ (by decide),
   nonpress_events_amended.2.2.2 ⟨true, false⟩⟩

/-! ## Claims about keyboard discovery -/

/-- Environment in which the `/dev/input` directory scan of strategy 1
throws, while strategy 2's `/dev/input/by-id` directory holds a keyboard
entry whose device node exists. -/
def lostKeyboardEnv : DiscoveryEnv :=
  { devInput := none
    udevadmKeyboardGrep := fun _ => none
    devInputById := some ["usb-kbd-device"]
    pathOk := fun p => p == "/dev/input/by-id/usb-kbd-device"
    evtest := none }

/-- The same environment except that the `/dev/input` listing merely
returns no entries instead of throwing. -/
def foundKeyboardEnv : DiscoveryEnv :=
  { lostKeyboardEnv with devInput := some [] }

/-- Counterexample for C7: when strategy 1's directory scan throws, the
exception reaches the function's outer catch and the remaining strategies
are skipped — the result is empty even though strategy 2, given the very
same environment with the strategy-1 scan merely finding nothing, locates
a keyboard. -/
theorem discovery_abort_counterexample :
    detectKeyboardDevices lostKeyboardEnv = [] ∧
    detectKeyboardDevices foundKeyboardEnv =
      ["/dev/input/by-id/usb-kbd-device"] := by
  constructor
  · rfl
  · decide

/-- Claim C7, amended: per-device probe failures inside strategy 1, and
failures of strategies 2 and 3, are caught locally — the remaining
strategies are still attempted and only exhaustion of all of them yields
the empty result; but a failure of strategy 1's own directory scan aborts
discovery and returns the empty list without trying strategies 2 or 3. In
every case the caller receives a list, never a propagated error. -/
theorem discovery_fallthrough_amended (env : DiscoveryEnv) :
    (env.devInput = none → detectKeyboardDevices env = []) ∧
    (∀ l, strategy1 env = some l → l ≠ [] →
       detectKeyboardDevices env = l) ∧
    (strategy1 env = some [] → strategy2 env ≠ [] →
       detectKeyboardDevices env = strategy2 env) ∧
    (strategy1 env = some [] → strategy2 env = [] → env.evtest = none →
       detectKeyboardDevices env = []) ∧
    (∀ out, strategy1 env = some [] → strategy2 env = [] →
       env.evtest = some out →
       detectKeyboardDevices env =
         evtestScan env.pathOk (jsSplit '\n' out)) := by
  refine ⟨fun h => ?_, fun l h hne => ?_, fun h hne => ?_,
    fun h h2 h3 => ?_, fun out h h2 h3 => ?_⟩
  · simp [detectKeyboardDevices, strategy1, h]
  · have hie : l.isEmpty = false := by
      cases l with
      | nil => exact absurd rfl hne
      | cons a t => rfl
    simp [detectKeyboardDevices, h, hie]
  · have hie : (strategy2 env).isEmpty = false := by
      cases hs : strategy2 env with
      | nil => exact absurd hs hne
      | cons a t => rfl
    simp [detectKeyboardDevices, h, hie]
  · simp [detectKeyboardDevices, h, h2, h3]
  · simp [detectKeyboardDevices, h, h2, h3]

/-- Witness for the amended C7, applying each fall-through clause on the
concrete environments. -/
theorem discovery_fallthrough_amended_witness :
    detectKeyboardDevices lostKeyboardEnv = [] ∧
    detectKeyboardDevices foundKeyboardEnv = strategy2 foundKeyboardEnv ∧
    detectKeyboardDevices
      { foundKeyboardEnv with devInputById := some [] } = [] := by
  refine ⟨(discovery_fallthrough_amended lostKeyboardEnv).1 rfl,
    (discovery_fallthrough_amended foundKeyboardEnv).2.2.1 rfl
      (by decide),
    (discovery_fallthrough_amended _).2.2.2.1 rfl (by decide) rfl⟩

/-! ## Claims about the presence-poll loop -/

lemma waitForPrinterAux_none (polls : Nat → List PrinterHandle)
    (hempty : ∀ i, polls i = []) :
    ∀ fuel start, waitForPrinterAux polls start fuel = none := by
  intro fuel
  induction fuel with
  | zero => intro start; rfl
  | succ n ih =>
    intro start
    simp only [waitForPrinterAux, hempty start]
    exact ih (start + 1)

lemma waitForPrinterAux_some (polls : Nat → List PrinterHandle) :
    ∀ fuel start p, waitForPrinterAux polls start fuel = some p →
      ∃ i, start ≤ i ∧ i < start + fuel ∧ (polls i).head? = some p ∧
        ∀ j, start ≤ j → j < i → polls j = [] := by
  intro fuel
  induction fuel with
  | zero => intro start p h; exact absurd h (by simp [waitForPrinterAux])
  | succ n ih =>
    intro start p h
    cases hp : polls start with
    | nil =>
      rw [waitForPrinterAux, hp] at h
      obtain ⟨i, h1, h2, h3, h4⟩ := ih (start + 1) p h
      refine ⟨i, by omega, by omega, h3, fun j hj1 hj2 => ?_⟩
      by_cases hjs : j = start
      · rw [hjs]; exact hp
      · exact h4 j (by omega) hj2
    | cons q t =>
      rw [waitForPrinterAux, hp] at h
      injection h with h
      exact ⟨start, le_refl start, by omega, by rw [hp, ← h]; rfl,
        fun j hj1 hj2 => absurd hj2 (by omega)⟩

/-- Counterexample for C9: the source loop has no cancellation input at
all — with the poll predicate never succeeding and cancellation requested
from the very first iteration, the spec's `awaitPresence` contract yields
`Cancelled`, while `waitForPrinter` is still polling after five
iterations and has produced no failure result. -/
theorem poller_no_cancellation_counterexample :
    waitForPrinter (fun _ => []) 5 = none ∧
    awaitPresenceSpec (fun _ => []) (fun _ => true) 0 5 =
      some PollOutcome.cancelled := by
  constructor
  · rfl
  · rfl

/-- Claim C9, amended: `waitForPrinter` polls unboundedly with no cancellation
check: it returns a value only when some poll finds a printer — the first
printer of the first non-empty poll, all earlier polls having been
empty — and when no poll ever succeeds it is still running after any
number of iterations, never failing with `Cancelled` or anything else. -/
theorem poller_unbounded_amended :
    (∀ polls fuel p, waitForPrinter polls fuel = some p →
       ∃ i, i < fuel ∧ (polls i).head? = some p ∧
         ∀ j, j < i → polls j = []) ∧
    (∀ polls, (∀ i, polls i = []) →
       ∀ fuel, waitForPrinter polls fuel = none) := by
  constructor
  · intro polls fuel p h
    obtain ⟨i, h1, h2, h3, h4⟩ := waitForPrinterAux_some polls fuel 0 p h
    exact ⟨i, by omega, h3, fun j hj => h4 j (Nat.zero_le j) hj⟩
  · intro polls hempty fuel
    exact waitForPrinterAux_none polls hempty fuel 0

/-- Witness for the amended C9: a poll stream that succeeds on the third
iteration, and one that never succeeds. -/
theorem poller_unbounded_amended_witness :
    waitForPrinter (fun _ => []) 3 = none ∧
    waitForPrinter
      (fun i => if i = 2 then [⟨"TM-T88IV", "04b8", "0202", "/dev/usb/lp0"⟩]
        else []) 7 =
      some ⟨"TM-T88IV", "04b8", "0202", "/dev/usb/lp0"⟩ := by
  constructor
  · exact poller_unbounded_amended.2 (fun _ => []) (fun i => rfl) 3
  · rfl

end Checkin
